import Mathlib

/-!
A shallow embedding of the Amiya-Bot core, covering:

* the handler registry and its plugin composition
  (src/amiyabot/handler/init module, class BotHandlerFactory and
  BotInstance.combine_factory);
* the KOOK gateway session state machine
  (src/amiyabot/adapters/kook/init module, class KOOKBotInstance);
* the Tencent message adapter
  (src/amiyabot/adapters/tencent/package.py, package_tencent_message).

Python dicts are modelled as insertion-ordered association lists, Python
ints as Nat/Int, fallible paths as explicit error values.  Names follow the
source where the environment allows it; the source fields prefix_keywords
and check_prefix are spelled pre_keywords / checkPre here.
-/

section RegistryMaps

variable {K : Type} [DecidableEq K] {α : Type}

/-- Value list stored at key `k` of a dict modelled as an insertion-ordered
association list; `[]` when the key is absent (Python would raise, but the
source only indexes keys it has checked). -/
def lookupList (m : List (K × List α)) (k : K) : List α :=
  match m.find? (fun e => decide (e.fst = k)) with
  | some e => e.snd
  | none => []

/-- Membership test `k in dict`. -/
def hasKey (m : List (K × List α)) (k : K) : Bool :=
  m.any (fun e => decide (e.fst = k))

/-- In-place list extension `dict[k] += vs` (applies to every entry holding
key `k`; dict keys are unique so at most one entry is touched). -/
def appendAt (m : List (K × List α)) (k : K) (vs : List α) : List (K × List α) :=
  m.map (fun e => if e.fst = k then (e.fst, e.snd ++ vs) else e)

/-- The dict half of BotInstance.combine_factory: for each key of `parent`,
assign it into `target` when absent, otherwise extend the existing list
(`target[e] = parent[e]` / `target[e] += parent[e]`).  New keys land at the
end, matching Python dict insertion order. -/
def combineMap (target parent : List (K × List α)) : List (K × List α) :=
  parent.foldl
    (fun t e => if hasKey t e.fst then appendAt t e.fst e.snd else t ++ [e])
    target

theorem lookupList_nil (k : K) : lookupList ([] : List (K × List α)) k = [] := rfl

theorem lookupList_cons (e : K × List α) (m : List (K × List α)) (k : K) :
    lookupList (e :: m) k = if e.fst = k then e.snd else lookupList m k := by
  by_cases h : e.fst = k <;> simp [lookupList, List.find?, h]

theorem hasKey_cons (e : K × List α) (m : List (K × List α)) (k : K) :
    hasKey (e :: m) k = (decide (e.fst = k) || hasKey m k) := by
  simp [hasKey]

theorem lookupList_eq_nil_of_not_hasKey (m : List (K × List α)) (k : K)
    (h : hasKey m k = false) : lookupList m k = [] := by
  induction m with
  | nil => rfl
  | cons e tl ih =>
    rw [hasKey_cons] at h
    rcases Bool.or_eq_false_iff.mp h with ⟨h1, h2⟩
    rw [lookupList_cons, if_neg (by simpa using h1)]
    exact ih h2

theorem lookupList_append (m m2 : List (K × List α)) (k : K) :
    lookupList (m ++ m2) k =
      if hasKey m k then lookupList m k else lookupList m2 k := by
  induction m with
  | nil => simp [hasKey]
  | cons e tl ih =>
    by_cases h : e.fst = k
    · simp [lookupList_cons, hasKey_cons, h]
    · simp only [List.cons_append, lookupList_cons, hasKey_cons, if_neg h, ih]
      simp [h]

theorem lookupList_appendAt_self (m : List (K × List α)) (k : K) (vs : List α)
    (h : hasKey m k = true) :
    lookupList (appendAt m k vs) k = lookupList m k ++ vs := by
  induction m with
  | nil => simp [hasKey] at h
  | cons e tl ih =>
    by_cases he : e.fst = k
    · simp only [appendAt, List.map_cons, if_pos he]
      rw [lookupList_cons, lookupList_cons, if_pos he, if_pos he]
    · rw [hasKey_cons] at h
      have h2 : hasKey tl k = true := by
        rcases Bool.or_eq_true_iff.mp h with h1 | h1
        · exact absurd (of_decide_eq_true h1) he
        · exact h1
      simp only [appendAt, List.map_cons, if_neg he]
      rw [lookupList_cons, lookupList_cons, if_neg he, if_neg he]
      exact ih h2

theorem lookupList_appendAt_ne (m : List (K × List α)) (k k2 : K) (vs : List α)
    (h : k2 ≠ k) :
    lookupList (appendAt m k vs) k2 = lookupList m k2 := by
  induction m with
  | nil => rfl
  | cons e tl ih =>
    by_cases he : e.fst = k
    · have hne : e.fst ≠ k2 := by
        rw [he]
        exact fun hc => h hc.symm
      simp only [appendAt, List.map_cons, if_pos he]
      rw [lookupList_cons, lookupList_cons, if_neg hne, if_neg hne]
      exact ih
    · by_cases he2 : e.fst = k2
      · simp only [appendAt, List.map_cons, if_neg he]
        rw [lookupList_cons, lookupList_cons, if_pos he2, if_pos he2]
      · simp only [appendAt, List.map_cons, if_neg he]
        rw [lookupList_cons, lookupList_cons, if_neg he2, if_neg he2]
        exact ih

theorem hasKey_eq_false_of_not_mem (m : List (K × List α)) (k : K)
    (h : k ∉ m.map Prod.fst) : hasKey m k = false := by
  induction m with
  | nil => rfl
  | cons e tl ih =>
    simp only [List.map_cons, List.mem_cons] at h
    push_neg at h
    rw [hasKey_cons, Bool.or_eq_false_iff]
    exact ⟨by simpa using fun hc => h.1 hc.symm, ih h.2⟩

theorem combineMap_step_len (t : List (K × List α)) (k0 : K) (vs0 : List α) (k : K) :
    (lookupList (if hasKey t k0 then appendAt t k0 vs0 else t ++ [(k0, vs0)]) k).length
      = (lookupList t k).length + (if k = k0 then vs0.length else 0) := by
  by_cases hk : hasKey t k0
  · rw [if_pos hk]
    by_cases he : k = k0
    · subst he
      rw [lookupList_appendAt_self t k vs0 hk, if_pos rfl]
      simp
    · rw [lookupList_appendAt_ne t k0 k vs0 he, if_neg he]
      omega
  · rw [if_neg hk, lookupList_append]
    by_cases he : k = k0
    · subst he
      rw [if_neg (by simpa using hk),
          lookupList_eq_nil_of_not_hasKey t k (by simpa using hk),
          lookupList_cons, if_pos rfl, if_pos rfl]
      simp
    · by_cases ht : hasKey t k
      · rw [if_pos ht, if_neg he]
        omega
      · rw [if_neg (by simpa using ht),
            lookupList_eq_nil_of_not_hasKey t k (by simpa using ht),
            lookupList_cons, if_neg (fun hc : k0 = k => he hc.symm),
            lookupList_nil, if_neg he]
        omega

/-- Core preservation lemma for the dict half of combine_factory: the merged
list at any key is exactly target list plus parent list (absent keys
counting as empty), provided the parent dict has unique keys (always true
of a Python dict). -/
theorem combineMap_lookupLen (p : List (K × List α)) :
    ∀ t : List (K × List α), (p.map Prod.fst).Nodup →
      ∀ k, (lookupList (combineMap t p) k).length
        = (lookupList t k).length + (lookupList p k).length := by
  induction p with
  | nil => intro t _ k; simp [combineMap, lookupList]
  | cons e tl ih =>
    intro t hnd k
    simp only [List.map_cons, List.nodup_cons] at hnd
    have step : combineMap t (e :: tl)
        = combineMap (if hasKey t e.fst then appendAt t e.fst e.snd
            else t ++ [(e.fst, e.snd)]) tl := by
      simp [combineMap, List.foldl_cons]
    rw [step, ih _ hnd.2 k, combineMap_step_len t e.fst e.snd k, lookupList_cons]
    by_cases he : e.fst = k
    · subst he
      rw [if_pos rfl, if_pos rfl,
          lookupList_eq_nil_of_not_hasKey tl e.fst (hasKey_eq_false_of_not_mem tl e.fst hnd.1)]
      simp [Nat.add_comm]
    · rw [if_neg he, if_neg (fun h => he h.symm)]
      omega

end RegistryMaps

section HandlerFactory

/-- Plain-value merge of Python dict.update: values of `parent` overwrite on
key collision (in place, keeping the position), new keys are appended. -/
def dictUpdate {K V : Type} [DecidableEq K] (target parent : List (K × V)) :
    List (K × V) :=
  parent.foldl
    (fun t e =>
      if t.any (fun x => decide (x.fst = e.fst)) then
        t.map (fun x => if x.fst = e.fst then e else x)
      else t ++ [e])
    target

/-- The registry held by one BotHandlerFactory (handler/init module, class
BotHandlerFactory).  Callback objects are opaque, so each collection is
parameterized by the type of its entries; exception-handler keys
(Python class objects) are modelled by their names as strings.  The source
field prefix_keywords is spelled pre_keywords here. -/
structure BotHandlerFactory (H E X A B M G : Type) where
  pre_keywords : List String
  group_config : List (String × G)
  event_handlers : List (String × List E)
  message_handlers : List H
  exception_handlers : List (String × List X)
  after_reply_handlers : List A
  before_reply_handlers : List B
  message_handler_middleware : List M

/-- BotInstance.combine_factory(target, parent): list fields are extended in
place with the parent lists; group configs are dict.update-merged; the two
handler dicts go through the assign-or-extend loop (combineMap). -/
def combine_factory {H E X A B M G : Type}
    (target parent : BotHandlerFactory H E X A B M G) :
    BotHandlerFactory H E X A B M G :=
  { pre_keywords := target.pre_keywords ++ parent.pre_keywords
    group_config := dictUpdate target.group_config parent.group_config
    event_handlers := combineMap target.event_handlers parent.event_handlers
    message_handlers := target.message_handlers ++ parent.message_handlers
    exception_handlers := combineMap target.exception_handlers parent.exception_handlers
    after_reply_handlers := target.after_reply_handlers ++ parent.after_reply_handlers
    before_reply_handlers := target.before_reply_handlers ++ parent.before_reply_handlers
    message_handler_middleware :=
      target.message_handler_middleware ++ parent.message_handler_middleware }

/-- Modelled from the spec where the defining module is missing: the class
MessageHandlerItem lives in handler/messageHandlerDefine, which is not under
src/; its constructor (as invoked by on_message, which passes neither
keywords nor custom_verify) leaves both predicate slots inactive, matching
the spec data model where a descriptor's predicate is one of keyword set,
prefix rule, or custom verify.  Field types are opaque parameters: F the
callback, K the keyword set, V the verify coroutine, P the check_prefix
argument, G a group config.  check_prefix is spelled checkPre. -/
structure MessageHandlerItem (F K V P G : Type) where
  function : F
  group_config : List (String × G)
  level : Int
  group_id : String
  direct_only : Bool
  allow_direct : Option Bool
  checkPre : Option P
  pre_keywords : List String
  keywords : Option K := none
  custom_verify : Option V := none

/-- Python str(group_id) as applied by on_message: str(None) is the literal
string "None". -/
def strOfGroupId : Option String → String
  | some s => s
  | none => "None"

/-- The register closure of BotHandlerFactory.on_message: it constructs a
MessageHandlerItem and then sets custom_verify when a verify argument was
supplied, otherwise assigns the keywords argument (which may itself be
absent).  The produced descriptor is returned; appending it to
message_handlers is not modelled here. -/
def on_message {F K V P G : Type} (group_config : List (String × G))
    (pre_keywords : List String) (group_id : Option String)
    (keywords : Option K) (verify : Option V) (checkPre : Option P)
    (allow_direct : Option Bool) (direct_only : Bool) (level : Int)
    (func : F) : MessageHandlerItem F K V P G :=
  let h : MessageHandlerItem F K V P G :=
    { function := func
      group_config := group_config
      level := level
      group_id := strOfGroupId group_id
      direct_only := direct_only
      allow_direct := allow_direct
      checkPre := checkPre
      pre_keywords := pre_keywords }
  if verify.isSome then { h with custom_verify := verify }
  else { h with keywords := keywords }

/-- Number of active predicates on a descriptor, where a predicate slot is
active when it holds a value. -/
def activePredicates {F K V P G : Type} (h : MessageHandlerItem F K V P G) : Nat :=
  (if (h).keywords.isSome then 1 else 0) + (if (h).custom_verify.isSome then 1 else 0)

end HandlerFactory

section KookGateway

/-- Fields of the payload dict `d` read by the state machine (the hello
frame carries a status code and a session id; dispatch frames carry an
arbitrary event body, which the machine forwards untouched). -/
structure WSData where
  code : Int
  session_id : String
deriving DecidableEq

/-- The gateway frame, dataclass WSPayload of the KOOK adapter:
opcode `s`, optional payload `d`, optional sequence `sn`, optional extra
data (unused by the state machine). -/
structure WSPayload where
  s : Int
  d : Option WSData := none
  sn : Option Nat := none
  extra : Option String := none
deriving DecidableEq

/-- Mutable fields of KOOKBotInstance touched by the read loop:
ws_url, last_sn, pong, session, the connection handle (modelled by whether
it is open) and the keep_run flag inherited from BotAdapterProtocol. -/
structure ConnState where
  ws_url : String
  last_sn : Nat
  pong : Nat
  session : Option String
  connectionOpen : Bool
  keep_run : Bool
deriving DecidableEq

/-- KOOKBotInstance state right after entering the websocket context:
pong = 0 and last_sn = 0 from the constructor, connection assigned. -/
def kook_init_state : ConnState :=
  { ws_url := ""
    last_sn := 0
    pong := 0
    session := none
    connectionOpen := true
    keep_run := true }

/-- Effects the read loop performs besides mutating its own fields. -/
inductive ConnAction
  | dispatchEvent (d : Option WSData)
  | sendResume (sn : Nat)
  | startHeartbeat
  | closeConnection
deriving DecidableEq

/-- Exceptions escaping one read-loop iteration: ManualCloseException from
a failed handshake, or a TypeError from indexing a missing payload. -/
inductive ConnErr
  | manualClose
  | fieldError
deriving DecidableEq

/-- Result of processing one frame: the instance state (mutated in place by
the source even when an exception is raised), emitted effects, and the
exception if one escaped. -/
structure FrameOut where
  st : ConnState
  acts : List ConnAction
  err : Option ConnErr
deriving DecidableEq

/-- True for a handshake frame whose payload carries a non-zero failure
code (the branch of KOOKBotInstance that clears ws_url and last_sn and
raises ManualCloseException). -/
def helloFailed (p : WSPayload) : Bool :=
  (p.s == 1) &&
    (match p.d with
     | some dd => dd.code != 0
     | none => false)

/-- One iteration of the read loop of KOOKBotInstance.__connect, statement
by statement: the unconditional sn overwrite, the opcode-0 dispatch task,
the opcode-1 handshake branch (failure resets the cached url and sequence
and raises; success optionally sends a resume frame carrying the current
last_sn, stores the session id and spawns the heartbeat task), the
opcode-3 pong mark, the opcode-5 invalidation, and the final truthy-sn
overwrite, which an escaped exception skips. -/
def process_frame (st0 : ConnState) (p : WSPayload) : FrameOut :=
  let st1 :=
    match p.sn with
    | some v => { st0 with last_sn := v }
    | none => st0
  let acts0 : List ConnAction :=
    if p.s = 0 then [ConnAction.dispatchEvent p.d] else []
  let r1 : FrameOut :=
    if p.s = 1 then
      match p.d with
      | none => { st := st1, acts := acts0, err := some ConnErr.fieldError }
      | some dd =>
        if dd.code ≠ 0 then
          { st := { st1 with ws_url := "", last_sn := 0 }
            acts := acts0
            err := some ConnErr.manualClose }
        else
          { st := { st1 with session := some dd.session_id }
            acts :=
              (acts0 ++
                (if st1.last_sn ≠ 0 then [ConnAction.sendResume st1.last_sn] else []))
                ++ [ConnAction.startHeartbeat]
            err := none }
    else { st := st1, acts := acts0, err := none }
  match r1.err with
  | some _ => r1
  | none =>
    let st2 := if p.s = 3 then { r1.st with pong := 1 } else r1.st
    let r2 : FrameOut :=
      if p.s = 5 then
        { st := { st2 with ws_url := "", last_sn := 0, connectionOpen := false }
          acts := r1.acts ++ [ConnAction.closeConnection]
          err := none }
      else { st := st2, acts := r1.acts, err := none }
    let st3 :=
      match p.sn with
      | some v => if v ≠ 0 then { r2.st with last_sn := v } else r2.st
      | none => r2.st
    { st := st3, acts := r2.acts, err := none }

/-- The preamble of KOOKBotInstance.__connect before the websocket is
opened: when no gateway url is cached it asks the REST gateway endpoint
(result supplied by the caller); a missing response raises
ManualCloseException.  The held sequence number is never touched here. -/
def connect_preamble (st : ConnState) (gatewayResp : Option String) :
    ConnState × Option ConnErr :=
  if st.ws_url = "" then
    match gatewayResp with
    | none => (st, some ConnErr.manualClose)
    | some url => ({ st with ws_url := url }, none)
  else (st, none)

/-- The loop of KOOKBotInstance.wait_heartbeat, driven by the values the
shared fields hold at each one-second poll: `pong i` is self.pong observed
at the i-th loop test, `aliveExt i` models keep_run combined with an
externally still-open connection; the watchdog's own close_connection makes
the alive predicate false from then on (tracked by `closed`).  Returns the
final `sec` counter and whether close_connection was invoked. -/
def wait_heartbeat_loop (pong : Nat → Nat) (aliveExt : Nat → Bool) :
    Nat → Nat → Bool → Nat × Bool
  | 0, sec, closed => (sec, closed)
  | Nat.succ fuel, sec, closed =>
    if pong sec = 0 ∧ aliveExt sec = true ∧ closed = false then
      wait_heartbeat_loop pong aliveExt fuel (sec + 1)
        (closed || decide (30 ≤ sec + 1))
    else (sec, closed)

/-- Start time of the i-th connection attempt made by the outer loop of
KOOKBotInstance.connect, given each attempt's duration: the loop awaits
one full lifecycle then sleeps the fixed 10-second backoff before
re-entering. -/
def connect_attempt_start (dur : Nat → Nat) (t0 : Nat) : Nat → Nat
  | 0 => t0
  | Nat.succ i => connect_attempt_start dur t0 i + dur i + 10

/-- Interleaved events acting on the shared heartbeat flag: the read loop
processing a frame, the 30-second timer of heartbeat_interval firing (it
sends the beat and spawns the watchdog but never assigns pong), and the
wait_heartbeat task finishing (its final statement resets pong to 0). -/
inductive HbEvent
  | frame (p : WSPayload)
  | beatTimerFire
  | watchdogDone
deriving DecidableEq

/-- State effect of one heartbeat-subsystem event on the instance. -/
def hb_effect (st : ConnState) : HbEvent → ConnState
  | HbEvent.frame p => (process_frame st p).st
  | HbEvent.beatTimerFire => st
  | HbEvent.watchdogDone => { st with pong := 0 }

/-- The spec reads pong = 0 as an acknowledgment being pending. -/
def ackPending (st : ConnState) : Prop := st.pong = 0

end KookGateway

section KookRoleCache

/-- One item of the guild-role/list REST response as read by
record_role_list. -/
structure RoleItem where
  role_id : String
  permissions : Nat
deriving DecidableEq

/-- The two dicts of the process-wide RolePermissionCache (declared in the
kook package module, whose file is not under src/; the shape is exactly
what record_role_list reads and writes): guild id to role-permission dict,
and guild id to the time the entry was recorded.  Timestamps are naturals
(the source uses time.time() floats; only differences against the
10-second TTL matter, and the clock is monotone). -/
structure RoleCache where
  guild_role : String → Option (List (String × Nat))
  cache_create_time : String → Option Nat

/-- Update of a role dict `roles[item.role_id] = item.permissions`. -/
def rolesInsert (rs : List (String × Nat)) (rid : String) (perm : Nat) :
    List (String × Nat) :=
  if rs.any (fun x => decide (x.fst = rid)) then
    rs.map (fun x => if x.fst = rid then (rid, perm) else x)
  else rs ++ [(rid, perm)]

/-- KOOKBotInstance.record_role_list: skip entirely when the guild was
recorded less than 10 seconds ago; otherwise issue one fetch (its outcome
is passed in: the item list of a successful response, or none when the
request failed and was ignored), store the rebuilt role dict on success,
delete any stale entry on failure, and stamp the fetch time.  The returned
Bool reports whether the fetch was issued. -/
def record_role_list (cache : RoleCache) (now : Nat) (guild_id : String)
    (fetch : Option (List RoleItem)) : RoleCache × Bool :=
  if (match cache.cache_create_time guild_id with
      | some t => decide (now - t < 10)
      | none => false) then
    (cache, false)
  else
    let cache2 :=
      match fetch with
      | some items =>
        let roles := items.foldl
          (fun rs (item : RoleItem) => rolesInsert rs item.role_id item.permissions) []
        { cache with
            guild_role := fun g =>
              if g = guild_id then some roles else cache.guild_role g }
      | none =>
        if (cache.guild_role guild_id).isSome then
          { cache with
              guild_role := fun g =>
                if g = guild_id then none else cache.guild_role g }
        else cache
    ({ cache2 with
        cache_create_time := fun g =>
          if g = guild_id then some now else cache2.cache_create_time g },
      true)

end KookRoleCache

section TencentAdapter

/-- A user object of the Tencent payload: author or mention entry.  The
`bot` field is optional because the source tests key presence on the
author; a mention entry read with a missing bot key is treated as falsy. -/
structure TUser where
  id : String
  username : String
  avatar : Option String := none
  bot : Option Bool := none
deriving DecidableEq

/-- The fields of the raw Tencent message dict that
package_tencent_message and get_info read.  Optional fields model the
`key in message` presence checks of the source; member_roles collapses the
nested member/roles presence checks; attachments keeps the url of each
item; message_reference keeps the referenced message id. -/
structure TMessage where
  id : String
  author : TUser
  guild_id : String
  src_guild_id : Option String := none
  channel_id : String
  direct_message : Option Bool := none
  member_roles : Option (List String) := none
  attachments : Option (List String) := none
  content : Option String := none
  mentions : Option (List TUser) := none
  message_reference : Option String := none
deriving DecidableEq

/-- Modelled from the spec where the defining module is missing: the
canonical Message object of builtin.message is not under src/; its fields
are the identity, content and flag slots of the spec data model, all
defaulting to empty as the adapter fills them in step by step. -/
structure CanonMessage where
  message_id : String := ""
  user_id : String := ""
  guild_id : String := ""
  src_guild_id : String := ""
  channel_id : String := ""
  nickname : String := ""
  avatar : Option String := none
  is_direct : Bool := false
  is_admin : Bool := false
  is_at : Bool := false
  image : List String := []
  face : List String := []
  at_target : List String := []
  text : String := ""
  text_origin : String := ""
deriving DecidableEq

/-- Result of the adapter: suppressed, a canonical message, or a canonical
Event wrapping the event name and the raw payload. -/
inductive PackResult
  | none
  | msg (data : CanonMessage)
  | event (name : String) (payload : TMessage)
deriving DecidableEq

/-- External collaborators of package_tencent_message, supplied as an
oracle record: the bot self identity (get_me), channel resolvability
(get_channel truthiness), referenced-message fetch (get_message, already
projected to its inner message object), the emoji-tag scan of the content
(re.findall over the text, an excluded field-extraction collaborator), and
text_convert from the common module (not under src/). -/
structure TInstance where
  get_me : Option TUser
  get_channel : String → Bool
  get_message : String → String → Option TMessage
  find_faces : String → List String
  text_convert : CanonMessage → String → String → CanonMessage

/-- Role ids that grant the admin flag. -/
def ADMIN : List String := ["2", "4", "5"]

/-- Event names of the message-creation kinds. -/
def message_created : List String :=
  ["MESSAGE_CREATE", "AT_MESSAGE_CREATE", "DIRECT_MESSAGE_CREATE"]

/-- get_info of the Tencent package module: copies the identity fields of
the raw message onto the canonical object. -/
def get_info (obj : CanonMessage) (message : TMessage) : CanonMessage :=
  { obj with
      message_id := message.id
      user_id := message.author.id
      guild_id := message.guild_id
      src_guild_id := message.src_guild_id.getD message.guild_id
      channel_id := message.channel_id
      nickname := message.author.username
      avatar := message.author.avatar }

/-- One step of the mention loop: strip the mention tag from the text,
mark is_at for a mention of the bot itself, skip other bot mentions,
collect remaining mentions as at targets. -/
def mentionStep (bot : Option TUser) (acc : String × CanonMessage) (u : TUser) :
    String × CanonMessage :=
  let text2 := acc.1.replace ("<@!" ++ u.id ++ ">") ""
  match bot with
  | some me =>
    if u.id = me.id then (text2, { acc.2 with is_at := true })
    else if u.bot.getD false then (text2, acc.2)
    else (text2, { acc.2 with at_target := acc.2.at_target ++ [u.id] })
  | none =>
    if u.bot.getD false then (text2, acc.2)
    else (text2, { acc.2 with at_target := acc.2.at_target ++ [u.id] })

/-- The straight-line part of the message-creation branch of
package_tencent_message, from get_info up to text_convert: returns none
when the channel of a non-direct message is not resolvable, otherwise the
canonical message before reference resolution. -/
def package_steps (inst : TInstance) (message : TMessage) : Option CanonMessage :=
  let data := get_info {} message
  let data := { data with is_direct := message.direct_message.getD false }
  let bot := inst.get_me
  if !data.is_direct && !(inst.get_channel data.channel_id) then
    none
  else
    let data :=
      match message.member_roles with
      | some roles =>
        if roles.filter (fun n => decide (n ∈ ADMIN)) ≠ [] then
          { data with is_admin := true }
        else data
      | none => data
    let data :=
      match message.attachments with
      | some urls =>
        { data with image := data.image ++ urls.map (fun u => "http://" ++ u) }
      | none => data
    let data :=
      match message.content with
      | some content =>
        let text := content
        let td :=
          match message.mentions with
          | some users =>
            if users ≠ [] then users.foldl (mentionStep bot) (text, data)
            else (text, data)
          | none => (text, data)
        let data2 := { td.2 with face := td.2.face ++ inst.find_faces td.1 }
        inst.text_convert data2 td.1.trim content
      | none => data
    some data

/-- One invocation of package_tencent_message with the recursive
reference-resolution call abstracted as `rec`: non-message events are
wrapped as Events; message-creation events go through the bot-author
suppression check, the straight-line packaging steps, and reference
resolution, which merges the referenced message's image list into the
parent when the reference packages to a message. -/
def packageLayer (inst : TInstance) (rec : String → TMessage → Bool → PackResult)
    (event : String) (message : TMessage) (is_reference : Bool) : PackResult :=
  if event ∈ message_created then
    if message.author.bot.getD false && !is_reference then
      PackResult.none
    else
      match package_steps inst message with
      | none => PackResult.none
      | some data =>
        PackResult.msg
          (match message.message_reference with
           | some refId =>
             match inst.get_message message.channel_id refId with
             | some refMsg =>
               match rec event refMsg true with
               | PackResult.msg rm => { data with image := data.image ++ rm.image }
               | _ => data
             | none => data
           | none => data)
  else PackResult.event event message

/-- package_tencent_message, with the reference-resolution recursion
bounded by explicit fuel (the source would loop forever on a cyclic
reference chain fetched from the API): a reference met with exhausted fuel
leaves the parent untouched (the continuation returns the suppression
value, which the catch-all of the merge match ignores).  Responses of
external collaborators come from the oracle record. -/
def package_tencent_message (inst : TInstance) :
    Nat → String → TMessage → Bool → PackResult
  | 0 => packageLayer inst (fun _ _ _ => PackResult.none)
  | Nat.succ fuel => packageLayer inst (package_tencent_message inst fuel)

end TencentAdapter

section RegistryTheorems

/-- Claim C3: combining a source registry into a target registry preserves
every event-handler and exception-handler entry: for each key, the merged
list length is the target length plus the source length, absent keys
counting as zero, so no entry is dropped or overwritten.  The hypotheses
record that both handler dicts have unique keys, which Python guarantees. -/
theorem combine_factory_no_loss {H E X A B M G : Type}
    (target parent : BotHandlerFactory H E X A B M G)
    (he : (parent.event_handlers.map Prod.fst).Nodup)
    (hx : (parent.exception_handlers.map Prod.fst).Nodup) :
    (∀ k, (lookupList (combine_factory target parent).event_handlers k).length
        = (lookupList target.event_handlers k).length
          + (lookupList parent.event_handlers k).length)
  ∧ (∀ k, (lookupList (combine_factory target parent).exception_handlers k).length
        = (lookupList target.exception_handlers k).length
          + (lookupList parent.exception_handlers k).length) := by
  constructor
  · intro k
    exact combineMap_lookupLen parent.event_handlers target.event_handlers he k
  · intro k
    exact combineMap_lookupLen parent.exception_handlers target.exception_handlers hx k

/-- Concrete registries for evaluating the composition theorems. -/
def exampleTarget : BotHandlerFactory Nat Nat Nat Nat Nat Nat Nat :=
  { pre_keywords := ["hello"]
    group_config := []
    event_handlers := [("JOIN", [1])]
    message_handlers := [10]
    exception_handlers := [("KeyError", [2, 3])]
    after_reply_handlers := []
    before_reply_handlers := []
    message_handler_middleware := [] }

/-- Concrete source registry for evaluating the composition theorems. -/
def exampleParent : BotHandlerFactory Nat Nat Nat Nat Nat Nat Nat :=
  { pre_keywords := ["bot"]
    group_config := [("grp", 1)]
    event_handlers := [("JOIN", [4]), ("LEAVE", [5])]
    message_handlers := [11, 12]
    exception_handlers := [("ValueError", [6])]
    after_reply_handlers := [7]
    before_reply_handlers := [8]
    message_handler_middleware := [9] }

theorem combine_factory_no_loss_witness :
    ((exampleParent.event_handlers.map Prod.fst).Nodup
      ∧ (exampleParent.exception_handlers.map Prod.fst).Nodup)
  ∧ (lookupList (combine_factory exampleTarget exampleParent).event_handlers "JOIN").length
      = (lookupList exampleTarget.event_handlers "JOIN").length
        + (lookupList exampleParent.event_handlers "JOIN").length :=
  ⟨⟨by decide, by decide⟩,
   (combine_factory_no_loss exampleTarget exampleParent (by decide) (by decide)).1 "JOIN"⟩

/-- Claim C6: composition does not deduplicate: combining the same source
into the same target twice appends the source sequences a second time and
doubles the source contribution at every key of the two handler dicts, so
re-combining an already-combined target is not idempotent. -/
theorem combine_factory_double_append {H E X A B M G : Type}
    (target parent : BotHandlerFactory H E X A B M G)
    (he : (parent.event_handlers.map Prod.fst).Nodup)
    (hx : (parent.exception_handlers.map Prod.fst).Nodup) :
    (combine_factory (combine_factory target parent) parent).pre_keywords
        = target.pre_keywords ++ parent.pre_keywords ++ parent.pre_keywords
  ∧ (combine_factory (combine_factory target parent) parent).message_handlers
        = target.message_handlers ++ parent.message_handlers ++ parent.message_handlers
  ∧ (combine_factory (combine_factory target parent) parent).after_reply_handlers
        = target.after_reply_handlers ++ parent.after_reply_handlers
            ++ parent.after_reply_handlers
  ∧ (combine_factory (combine_factory target parent) parent).before_reply_handlers
        = target.before_reply_handlers ++ parent.before_reply_handlers
            ++ parent.before_reply_handlers
  ∧ (combine_factory (combine_factory target parent) parent).message_handler_middleware
        = target.message_handler_middleware ++ parent.message_handler_middleware
            ++ parent.message_handler_middleware
  ∧ (∀ k, (lookupList (combine_factory (combine_factory target parent) parent).event_handlers k).length
        = (lookupList target.event_handlers k).length
          + 2 * (lookupList parent.event_handlers k).length)
  ∧ (∀ k, (lookupList (combine_factory (combine_factory target parent) parent).exception_handlers k).length
        = (lookupList target.exception_handlers k).length
          + 2 * (lookupList parent.exception_handlers k).length) := by
  refine ⟨rfl, rfl, rfl, rfl, rfl, ?_, ?_⟩
  · intro k
    have h1 := combineMap_lookupLen parent.event_handlers
      (combineMap target.event_handlers parent.event_handlers) he k
    have h2 := combineMap_lookupLen parent.event_handlers target.event_handlers he k
    show (lookupList (combineMap (combineMap target.event_handlers parent.event_handlers)
        parent.event_handlers) k).length = _
    omega
  · intro k
    have h1 := combineMap_lookupLen parent.exception_handlers
      (combineMap target.exception_handlers parent.exception_handlers) hx k
    have h2 := combineMap_lookupLen parent.exception_handlers target.exception_handlers hx k
    show (lookupList (combineMap (combineMap target.exception_handlers parent.exception_handlers)
        parent.exception_handlers) k).length = _
    omega

theorem combine_factory_double_append_witness :
    ((exampleParent.event_handlers.map Prod.fst).Nodup
      ∧ (exampleParent.exception_handlers.map Prod.fst).Nodup)
  ∧ (combine_factory (combine_factory exampleTarget exampleParent) exampleParent).pre_keywords
      = exampleTarget.pre_keywords ++ exampleParent.pre_keywords ++ exampleParent.pre_keywords :=
  ⟨⟨by decide, by decide⟩,
   (combine_factory_double_append exampleTarget exampleParent (by decide) (by decide)).1⟩

/-- Counterexample to claim C9 as stated: registering with neither keywords
nor a verify function produces a descriptor whose predicate slots are both
inactive (the source assigns keywords = None on the else branch), so the
number of active predicates is 0, not exactly one. -/
theorem on_message_neither_predicate_cex :
    activePredicates
      (on_message ([] : List (String × Nat)) [] none (none : Option (List String))
        (none : Option Nat) (none : Option Nat) none false 0 (0 : Nat)) = 0 := rfl

/-- Claim C9 (amended): at most one of the two predicates is ever active on
a descriptor produced by on_message; when a verify function is supplied it
is the active one and any keywords supplied alongside are dropped; when
only keywords are supplied the keyword set is active; when neither is
supplied, no predicate of either kind is active. -/
theorem on_message_predicate_exclusive {F K V P G : Type}
    (gc : List (String × G)) (pre : List String) (gid : Option String)
    (keywords : Option K) (verify : Option V) (cp : Option P)
    (ad : Option Bool) (donly : Bool) (level : Int) (func : F) :
    (verify.isSome = true →
       (on_message gc pre gid keywords verify cp ad donly level func).custom_verify = verify
     ∧ (on_message gc pre gid keywords verify cp ad donly level func).keywords = none)
  ∧ (verify = none →
       (on_message gc pre gid keywords verify cp ad donly level func).keywords = keywords
     ∧ (on_message gc pre gid keywords verify cp ad donly level func).custom_verify = none)
  ∧ activePredicates (on_message gc pre gid keywords verify cp ad donly level func)
      = (if keywords.isNone ∧ verify.isNone then 0 else 1) := by
  rcases verify with _ | v <;> rcases keywords with _ | kw <;>
    simp [on_message, activePredicates]

theorem on_message_predicate_exclusive_witness :
    (some 7 : Option Nat).isSome = true
  ∧ ((on_message ([] : List (String × Nat)) [] none (some ["key"]) (some 7)
        (none : Option Nat) none false 0 (0 : Nat)).custom_verify = some 7
   ∧ (on_message ([] : List (String × Nat)) [] none (some ["key"]) (some 7)
        (none : Option Nat) none false 0 (0 : Nat)).keywords = none) :=
  ⟨rfl,
   (on_message_predicate_exclusive ([] : List (String × Nat)) [] none (some ["key"])
     (some 7) (none : Option Nat) none false 0 (0 : Nat)).1 rfl⟩

end RegistryTheorems

section KookTheorems

/-- Counterexample to claim C1 as stated: a handshake frame carrying a
non-zero failure code and sn = 7 leaves last_sn = 0, not 7 — the failure
branch resets the sequence and raises before the final sn overwrite runs. -/
theorem kook_sn_hello_fail_cex :
    (process_frame kook_init_state
        { s := 1, d := some { code := 40003, session_id := "" }, sn := some 7 }).st.last_sn = 0
  ∧ ({ s := 1, d := some { code := 40003, session_id := "" }, sn := some 7 } : WSPayload).sn
      = some 7 :=
  ⟨rfl, rfl⟩

/-- Claim C1 (amended): after processing a frame with a non-null sn the
stored last_sn equals that sn (last-write-wins, even when numerically
smaller), for every opcode except a handshake frame carrying a non-zero
failure code, which instead resets last_sn to 0 as part of invalidation. -/
theorem process_frame_updates_last_sn (st : ConnState) (p : WSPayload) (v : Nat)
    (h : p.sn = some v) :
    (process_frame st p).st.last_sn = if helloFailed p then 0 else v := by
  by_cases hs1 : p.s = 1
  · rcases hd : p.d with _ | dd
    · simp [process_frame, helloFailed, h, hs1, hd]
    · by_cases hc : dd.code = 0
      · by_cases hv : v = 0 <;>
          simp [process_frame, helloFailed, h, hs1, hd, hc, hv]
      · simp [process_frame, helloFailed, h, hs1, hd, hc]
  · by_cases hs5 : p.s = 5
    · by_cases hv : v = 0 <;>
        simp [process_frame, helloFailed, h, hs1, hs5, hv]
    · by_cases hs3 : p.s = 3 <;> by_cases hv : v = 0 <;>
        simp [process_frame, helloFailed, h, hs1, hs3, hs5, hv]

theorem process_frame_updates_last_sn_witness :
    ({ s := 0, sn := some 3 } : WSPayload).sn = some 3
  ∧ (process_frame kook_init_state { s := 0, sn := some 3 }).st.last_sn
      = if helloFailed { s := 0, sn := some 3 } then 0 else 3 :=
  ⟨rfl, process_frame_updates_last_sn kook_init_state { s := 0, sn := some 3 } 3 rfl⟩

/-- Claim C2: reconnection does not reset the held sequence — the preamble
of a fresh connection attempt leaves last_sn untouched whatever the
gateway fetch returns, and processing a successful handshake while a
non-zero last_sn is held emits a resume request (opcode 4) carrying exactly
that held value. -/
theorem resume_carries_held_sn (st : ConnState) (v : Nat) (sid : String)
    (gw : Option String) (hv : st.last_sn = v) (hnz : v ≠ 0) :
    (connect_preamble st gw).1.last_sn = v
  ∧ ConnAction.sendResume v ∈
      (process_frame st { s := 1, d := some { code := 0, session_id := sid }, sn := none }).acts := by
  constructor
  · rcases gw with _ | url <;> simp [connect_preamble, hv] <;>
      split <;> simp [hv]
  · simp [process_frame, hv, hnz]

theorem resume_carries_held_sn_witness :
    ({ kook_init_state with last_sn := 42 } : ConnState).last_sn = 42
  ∧ (42 : Nat) ≠ 0
  ∧ ConnAction.sendResume 42 ∈
      (process_frame { kook_init_state with last_sn := 42 }
        { s := 1, d := some { code := 0, session_id := "sid" }, sn := none }).acts :=
  ⟨rfl, by decide,
   (resume_carries_held_sn { kook_init_state with last_sn := 42 } 42 "sid" none rfl
     (by decide)).2⟩

/-- Helper for claim C4: when the pong flag stays 0 and the session stays
alive through every poll of the watchdog window, the wait_heartbeat loop
runs exactly 30 iterations and invokes close_connection. -/
theorem wait_heartbeat_loop_closes (pong : Nat → Nat) (aliveExt : Nat → Bool)
    (hp : ∀ i, i < 30 → pong i = 0) (ha : ∀ i, i < 30 → aliveExt i = true) :
    ∀ n k sec, sec + n = 29 →
      wait_heartbeat_loop pong aliveExt (n + 2 + k) sec false = (30, true) := by
  intro n
  induction n with
  | zero =>
    intro k sec hsec
    have hs : sec = 29 := by omega
    subst hs
    rw [show (0 + 2 + k) = Nat.succ (Nat.succ k) from by omega]
    rw [wait_heartbeat_loop, if_pos ⟨hp 29 (by omega), ha 29 (by omega), rfl⟩]
    rw [wait_heartbeat_loop]
    simp
  | succ n ih =>
    intro k sec hsec
    rw [show (n + 1 + 2 + k) = Nat.succ (n + 2 + k) from by omega]
    rw [wait_heartbeat_loop, if_pos ⟨hp sec (by omega), ha sec (by omega), rfl⟩]
    have hd : (false || decide (30 ≤ sec + 1)) = false := by
      simp only [Bool.false_or, decide_eq_false_iff_not]
      omega
    rw [hd]
    exact ih k (sec + 1) (by omega)

/-- Claim C4: if a beat was sent and no ack is observed while the session
stays alive, the watchdog forces the socket closed when its 30-second
window elapses (after exactly 30 one-second polls), and the outer connect
loop starts the next connection attempt exactly the fixed 10-second
backoff after an attempt ends. -/
theorem heartbeat_watchdog_forces_reconnect (pong : Nat → Nat) (aliveExt : Nat → Bool)
    (hp : ∀ i, i < 30 → pong i = 0) (ha : ∀ i, i < 30 → aliveExt i = true)
    (fuel : Nat) (hf : 31 ≤ fuel) (dur : Nat → Nat) (t0 i : Nat) :
    wait_heartbeat_loop pong aliveExt fuel 0 false = (30, true)
  ∧ connect_attempt_start dur t0 (i + 1) = connect_attempt_start dur t0 i + dur i + 10 := by
  constructor
  · have h2 := wait_heartbeat_loop_closes pong aliveExt hp ha 29 (fuel - 31) 0 (by omega)
    rw [show (29 + 2 + (fuel - 31)) = fuel from by omega] at h2
    exact h2
  · rfl

theorem heartbeat_watchdog_forces_reconnect_witness :
    (31 : Nat) ≤ 31
  ∧ wait_heartbeat_loop (fun _ => 0) (fun _ => true) 31 0 false = (30, true) :=
  ⟨by omega,
   (heartbeat_watchdog_forces_reconnect (fun _ => 0) (fun _ => true)
     (fun _ _ => rfl) (fun _ _ => rfl) 31 (by omega) (fun _ => 0) 0 0).1⟩

/-- True exactly for the read-loop event that processes a heartbeat-ack
frame (opcode 3). -/
def isAckFrame : HbEvent → Prop
  | HbEvent.frame p => p.s = 3
  | _ => False

/-- Helper: the only write the read loop performs on pong is setting it to
1 while processing an opcode-3 frame. -/
theorem process_frame_pong (st : ConnState) (p : WSPayload) :
    (process_frame st p).st.pong = if p.s = 3 then 1 else st.pong := by
  by_cases hs1 : p.s = 1
  · have hs3 : ¬p.s = 3 := by omega
    rcases hd : p.d with _ | dd
    · rcases hsn : p.sn with _ | v <;>
        simp [process_frame, hs1, hs3, hd, hsn]
    · rcases hsn : p.sn with _ | v
      · by_cases hc : dd.code = 0 <;>
          simp [process_frame, hs1, hs3, hd, hc, hsn]
      · by_cases hc : dd.code = 0 <;> by_cases hv : v = 0 <;>
          simp [process_frame, hs1, hs3, hd, hc, hsn, hv]
  · rcases hsn : p.sn with _ | v
    · by_cases hs3 : p.s = 3 <;> by_cases hs5 : p.s = 5 <;>
        simp [process_frame, hs1, hs3, hs5, hsn]
    · by_cases hs3 : p.s = 3 <;> by_cases hs5 : p.s = 5 <;> by_cases hv : v = 0 <;>
        simp [process_frame, hs1, hs3, hs5, hsn, hv]

/-- Counterexample to claim C5 as stated: starting from the reachable state
just after an ack frame was processed (pong = 1, so ackPending is false),
the completion of the wait_heartbeat task — not the sending of a heartbeat
— flips pong back to 0, i.e. makes ackPending true: the false-to-true
transition of the ack-pending flag happens at watchdog completion, while
the beat sender never assigns the flag at all. -/
theorem ackpending_set_outside_beatsend_cex :
    (process_frame kook_init_state { s := 3 }).st.pong = 1
  ∧ (hb_effect (process_frame kook_init_state { s := 3 }).st HbEvent.watchdogDone).pong = 0
  ∧ hb_effect (process_frame kook_init_state { s := 3 }).st HbEvent.beatTimerFire
      = (process_frame kook_init_state { s := 3 }).st :=
  ⟨rfl, rfl, rfl⟩

/-- Claim C5 (amended): the beat sender never modifies the ack-pending
flag; any change of pong is either the read loop setting it to 1 on
receipt of an ack frame (ackPending true to false), or the completion of
the wait_heartbeat watchdog task resetting it to 0 (ackPending false to
true) — so ackPending becomes false only on ack receipt, but it becomes
true at watchdog completion rather than at the moment a beat is sent. -/
theorem hb_ack_flag_transitions (st : ConnState) (e : HbEvent) :
    hb_effect st HbEvent.beatTimerFire = st
  ∧ ((hb_effect st e).pong ≠ st.pong →
      ((hb_effect st e).pong = 1 ∧ isAckFrame e)
    ∨ ((hb_effect st e).pong = 0 ∧ e = HbEvent.watchdogDone)) := by
  refine ⟨rfl, ?_⟩
  intro hne
  cases e with
  | frame p =>
    left
    rw [hb_effect, process_frame_pong] at hne ⊢
    by_cases hs : p.s = 3
    · rw [if_pos hs]
      exact ⟨rfl, hs⟩
    · rw [if_neg hs] at hne
      exact absurd rfl hne
  | beatTimerFire => exact absurd rfl hne
  | watchdogDone => exact Or.inr ⟨rfl, rfl⟩

theorem hb_ack_flag_transitions_witness :
    (hb_effect kook_init_state (HbEvent.frame { s := 3 })).pong ≠ kook_init_state.pong
  ∧ (((hb_effect kook_init_state (HbEvent.frame { s := 3 })).pong = 1
       ∧ isAckFrame (HbEvent.frame { s := 3 }))
     ∨ ((hb_effect kook_init_state (HbEvent.frame { s := 3 })).pong = 0
       ∧ HbEvent.frame { s := 3 } = HbEvent.watchdogDone)) :=
  ⟨by decide,
   (hb_ack_flag_transitions kook_init_state (HbEvent.frame { s := 3 })).2 (by decide)⟩

/-- Claim C8: a role-list query within 10 seconds of the last recorded
fetch performs no refetch and leaves the cache untouched; a query at or
past the TTL performs the one refetch and restamps the fetch time, so an
immediately following query does not refetch again; and a failed refetch
deletes any stale role entry for that guild instead of serving it. -/
theorem record_role_list_ttl (cache : RoleCache) (g : String) (t now now2 : Nat)
    (fetch fetch2 : Option (List RoleItem)) :
    (cache.cache_create_time g = some t → now - t < 10 →
       record_role_list cache now g fetch = (cache, false))
  ∧ (cache.cache_create_time g = some t → 10 ≤ now - t →
       (record_role_list cache now g fetch).2 = true
     ∧ (record_role_list cache now g fetch).1.cache_create_time g = some now
     ∧ (now2 - now < 10 →
          record_role_list (record_role_list cache now g fetch).1 now2 g fetch2
            = ((record_role_list cache now g fetch).1, false)))
  ∧ (cache.cache_create_time g = some t → 10 ≤ now - t → fetch = none →
       (record_role_list cache now g fetch).1.guild_role g = none) := by
  refine ⟨?_, ?_, ?_⟩
  · intro h1 h2
    simp [record_role_list, h1, h2]
  · intro h1 h2
    have hno : ¬ now - t < 10 := by omega
    rcases fetch with _ | items
    · by_cases hro : (cache.guild_role g).isSome <;>
        refine ⟨by simp [record_role_list, h1, hno, hro], by simp [record_role_list, h1, hno, hro], ?_⟩ <;>
        · intro h3
          simp [record_role_list, h1, hno, hro, h3]
    · refine ⟨by simp [record_role_list, h1, hno], by simp [record_role_list, h1, hno], ?_⟩
      intro h3
      simp [record_role_list, h1, hno, h3]
  · intro h1 h2 h3
    subst h3
    have hno : ¬ now - t < 10 := by omega
    by_cases hro : (cache.guild_role g).isSome
    · simp [record_role_list, h1, hno, hro]
    · simp [record_role_list, h1, hno, hro]
      simpa using hro

/-- Concrete cache for evaluating record_role_list: one guild recorded at
time 0, no role entry stored. -/
def roleCacheW : RoleCache :=
  { guild_role := fun _ => none
    cache_create_time := fun g => if g = "g1" then some 0 else none }

theorem record_role_list_ttl_witness :
    (roleCacheW.cache_create_time "g1" = some 0 ∧ 5 - 0 < 10)
  ∧ record_role_list roleCacheW 5 "g1" none = (roleCacheW, false) :=
  ⟨⟨rfl, by omega⟩,
   (record_role_list_ttl roleCacheW "g1" 0 5 0 none none).1 rfl (by omega)⟩

end KookTheorems

section TencentTheorems

/-- Helper: the straight-line packaging steps never read the author's bot
flag, so changing it does not change their result. -/
theorem package_steps_author_bot (inst : TInstance) (message : TMessage)
    (b : Option Bool) :
    package_steps inst { message with author := { message.author with bot := b } }
      = package_steps inst message := by
  simp [package_steps, get_info]

/-- Claim C7: a message-creation payload authored by a bot account is
suppressed (the adapter returns none) on a normal invocation, while a
recursive reference-resolution pass packages it exactly as it would the
same message without the bot mark — the suppression check is the only
place the author's bot flag is read. -/
theorem package_tencent_bot_suppression (inst : TInstance) (fuel : Nat)
    (event : String) (message : TMessage) (hev : event ∈ message_created) :
    (message.author.bot = some true →
       package_tencent_message inst fuel event message false = PackResult.none)
  ∧ ∀ b : Option Bool,
      package_tencent_message inst fuel event
        { message with author := { message.author with bot := b } } true
      = package_tencent_message inst fuel event message true := by
  constructor
  · intro hb
    cases fuel <;>
      · rw [package_tencent_message]
        rw [packageLayer, if_pos hev]
        simp [hb]
  · intro b
    cases fuel <;>
      · rw [package_tencent_message]
        rw [packageLayer, packageLayer, if_pos hev, if_pos hev]
        simp [package_steps_author_bot]

/-- A trivial oracle: no self identity, every channel resolvable, no
referenced message found, no emoji tags, identity text conversion. -/
def tinstW : TInstance :=
  { get_me := none
    get_channel := fun _ => true
    get_message := fun _ _ => none
    find_faces := fun _ => []
    text_convert := fun d _ _ => d }

/-- A minimal bot-authored message payload. -/
def tmsgW : TMessage :=
  { id := "m1"
    author := { id := "u1", username := "nick", bot := some true }
    guild_id := "g1"
    channel_id := "c1" }

theorem package_tencent_bot_suppression_witness :
    ("MESSAGE_CREATE" ∈ message_created ∧ tmsgW.author.bot = some true)
  ∧ package_tencent_message tinstW 0 "MESSAGE_CREATE" tmsgW false = PackResult.none :=
  ⟨⟨by decide, rfl⟩,
   (package_tencent_bot_suppression tinstW 0 "MESSAGE_CREATE" tmsgW (by decide)).1 rfl⟩

/-- Claim C10: for every event name outside the message-creation set the
adapter returns the canonical Event wrapping the event name and the raw
payload — never none — whatever the payload holds; only message-creation
events can produce none. -/
theorem package_tencent_event_wrap (inst : TInstance) (fuel : Nat)
    (event : String) (message : TMessage) (is_reference : Bool)
    (hev : event ∉ message_created) :
    package_tencent_message inst fuel event message is_reference
      = PackResult.event event message := by
  cases fuel <;>
    · rw [package_tencent_message]
      rw [packageLayer, if_neg hev]

theorem package_tencent_event_wrap_witness :
    "GUILD_MEMBER_ADD" ∉ message_created
  ∧ package_tencent_message tinstW 0 "GUILD_MEMBER_ADD" tmsgW false
      = PackResult.event "GUILD_MEMBER_ADD" tmsgW :=
  ⟨by decide,
   package_tencent_event_wrap tinstW 0 "GUILD_MEMBER_ADD" tmsgW false (by decide)⟩

end TencentTheorems
